import Mathlib

/-!
Shallow embedding of `src/monero-wrapper/monero-methods.{hpp,cpp}` from
EdgeApp/react-native-monero-lwsf, together with theorems checking the
natural-language specification against it.

The C++ source defines two handlers (`hello`, `getHeight`), a fixed array
`moneroMethods` of `MoneroMethod` descriptors, and its element count
`moneroMethodCount`.  Handlers read external state (the wallet-manager
singleton and the `displayAmount` formatter from the external `lwsf`
library) and may print diagnostics; we model external state as an
explicit environment argument, diagnostics as an output trace, and a
null-pointer dereference as a distinguished `crash` outcome.
The frontend-side registry lookup and dispatch are not in the repository
source; they are modelled from the specification and marked as such.
-/

/-- External wallet-manager singleton (from the external `lwsf` library):
the only operation the shim calls on it is `blockchainHeight()`, returning
an unsigned 64-bit integer.  Modelled as a `Nat`; no arithmetic is
performed on it, so the `2 ^ 64` bound appears as a hypothesis where the
spec mentions the width. -/
structure WalletManager where
  blockchainHeight : Nat

/-- External environment of the shim: the factory
`lwsf::WalletManagerFactory::getWalletManager()` returns a pointer that
may be null (modelled as `Option WalletManager`), and
`lwsf::displayAmount` formats a raw integer as a display string. -/
structure LwsfEnv where
  getWalletManager : Option WalletManager
  displayAmount : Nat → String

/-- Outcome of running a handler: a normal string return, or a crash
(undefined behaviour such as dereferencing a null pointer). -/
inductive ExecResult (α : Type) where
  | ok : α → ExecResult α
  | crash : ExecResult α
deriving DecidableEq

/-- Handler `hello` (monero-methods.cpp lines 6-9): prints the diagnostic
`"LWSF says hello\n"` via `printf` and returns the literal `"hello"`.
The first component of the result is the trace of diagnostics printed. -/
def hello (_env : LwsfEnv) (_args : List String) :
    List String × ExecResult String :=
  (["LWSF says hello\n"], ExecResult.ok "hello")

/-- Handler `getHeight` (monero-methods.cpp lines 11-15): obtains the
wallet-manager singleton from the factory, immediately dereferences the
returned pointer to read `blockchainHeight()`, and returns
`lwsf::displayAmount(height)`.  The source performs no null check, so a
null factory result is a null-pointer dereference, modelled as `crash`. -/
def getHeight (env : LwsfEnv) (_args : List String) :
    List String × ExecResult String :=
  match env.getWalletManager with
  | some m => ([], ExecResult.ok (env.displayAmount m.blockchainHeight))
  | none => ([], ExecResult.crash)

/-- Method descriptor (monero-methods.hpp lines 7-11): a name, a declared
argument count (`int` in the source, hence `Int`), and a handler. -/
structure MoneroMethod where
  name : String
  argc : Int
  method : LwsfEnv → List String → List String × ExecResult String

/-- The registry (monero-methods.cpp lines 17-20): the fixed array of
descriptors, in declaration order. -/
def moneroMethods : List MoneroMethod :=
  [ { name := "hello", argc := 0, method := hello },
    { name := "getHeight", argc := 0, method := getHeight } ]

/-- Exported count (monero-methods.cpp line 22):
`std::end(moneroMethods) - std::begin(moneroMethods)`, i.e. the number of
elements of the array. -/
def moneroMethodCount : Nat :=
  moneroMethods.length

/-- Error taxonomy of the specification (section 7). -/
inductive MoneroError where
  | MethodNotFound
  | ArityMismatch
  | WalletManagerUnavailable
  | DisplayFormatError
deriving DecidableEq

/-- Modelled from the spec: the frontend-side registry lookup is not part
of the repository source (only the registry itself is exported).  Per the
spec, lookup locates "the matching descriptor (linear or hashed lookup
over the registry)" and "fails with `MethodNotFound` when no descriptor
matches the requested name". -/
def lookupMethod (name : String) : Except MoneroError MoneroMethod :=
  match moneroMethods.find? (fun d => d.name == name) with
  | some d => Except.ok d
  | none => Except.error MoneroError.MethodNotFound

/-- Modelled from the spec: the frontend-side dispatch is not part of the
repository source.  Per the spec, dispatch looks the name up, "fails with
`ArityMismatch` when the caller-supplied argument count does not equal
the descriptor's declared `argumentCount`", and otherwise invokes the
handler on the supplied arguments. -/
def dispatch (env : LwsfEnv) (name : String) (args : List String) :
    Except MoneroError (List String × ExecResult String) :=
  (lookupMethod name).bind (fun d =>
    if (args.length : Int) = d.argc then Except.ok (d.method env args)
    else Except.error MoneroError.ArityMismatch)

/-- Modelled from the spec: the registry `lwsfMethods` is repository code
missing from src/ (only `moneroMethods` appears there).  The spec's Design
Notes record it as one of "two near-identical registries (`lwsfMethods`
and `moneroMethods`) differing only in naming, suggesting an in-progress
rename", so it is the same descriptor sequence under the older name. -/
def lwsfMethods : List MoneroMethod :=
  [ { name := "hello", argc := 0, method := hello },
    { name := "getHeight", argc := 0, method := getHeight } ]

/-- View of a registry as a name-to-(arity, handler) mapping: the first
descriptor carrying a given name, as its (argc, method) pair. -/
def registryMap (reg : List MoneroMethod) (name : String) :
    Option (Int × (LwsfEnv → List String → List String × ExecResult String)) :=
  (reg.find? (fun d => d.name == name)).map (fun d => (d.argc, d.method))

/-- C2: invoking the `hello` handler (with any argument list and any
external environment) returns exactly the literal string `"hello"`, and
its only side effect is emitting the single diagnostic message
`"LWSF says hello\n"`. -/
theorem hello_returns_hello (env : LwsfEnv) (args : List String) :
    hello env args = (["LWSF says hello\n"], ExecResult.ok "hello") :=
  rfl

/-- C1: whenever the factory yields a wallet manager, `getHeight` reads
its blockchain height (an unsigned 64-bit integer) and returns the result
of the external display-amount function on that height, unchanged and
with no diagnostic output; in particular, against a stub manager whose
height is `12345` and whose display function is decimal formatting, it
returns `"12345"`. -/
theorem getHeight_formats_manager_height (env : LwsfEnv) (m : WalletManager)
    (hm : env.getWalletManager = some m) (_hw : m.blockchainHeight < 2 ^ 64)
    (args : List String) :
    getHeight env args
      = ([], ExecResult.ok (env.displayAmount m.blockchainHeight)) ∧
    getHeight { getWalletManager := some { blockchainHeight := 12345 },
                displayAmount := toString } args
      = ([], ExecResult.ok "12345") := by
  refine ⟨?_, rfl⟩
  unfold getHeight
  rw [hm]

/-- Witness for C1: the theorem applied to a concrete stub environment
whose manager has height `12345`. -/
theorem getHeight_formats_manager_height_witness :
    getHeight { getWalletManager := some { blockchainHeight := 12345 },
                displayAmount := toString } []
      = ([], ExecResult.ok (toString 12345)) :=
  (getHeight_formats_manager_height
    { getWalletManager := some { blockchainHeight := 12345 },
      displayAmount := toString }
    { blockchainHeight := 12345 } rfl (by decide) []).1

/-- C3 (failing input): when the factory yields no wallet manager, the
source dereferences the null pointer, so `getHeight` crashes rather than
failing with `WalletManagerUnavailable`. -/
theorem getHeight_null_manager_crashes :
    getHeight { getWalletManager := none, displayAmount := toString } []
      = ([], ExecResult.crash) :=
  rfl

/-- C4: looking up any name that is not the name of a descriptor in the
registry (whose names are exactly `"hello"` and `"getHeight"`) fails
with `MethodNotFound`. -/
theorem lookup_unknown_name_fails (name : String)
    (h : name ∉ moneroMethods.map (fun d => d.name)) :
    lookupMethod name = Except.error MoneroError.MethodNotFound := by
  simp only [moneroMethods, List.map_cons, List.map_nil, List.mem_cons,
    List.not_mem_nil, or_false, not_or] at h
  have h1 : ("hello" == name) = false := beq_eq_false_iff_ne.mpr (Ne.symm h.1)
  have h2 : ("getHeight" == name) = false := beq_eq_false_iff_ne.mpr (Ne.symm h.2)
  simp [lookupMethod, moneroMethods, List.find?, h1, h2]

/-- Witness for C4: looking up `"balance"`, which is not a registered
name, fails with `MethodNotFound`. -/
theorem lookup_unknown_name_fails_witness :
    lookupMethod "balance" = Except.error MoneroError.MethodNotFound :=
  lookup_unknown_name_fails "balance" (by decide)

/-- C5: looking up the name of any descriptor registered in the registry
returns exactly that descriptor (same name, declared argument count and
handler). -/
theorem lookup_registered_returns_descriptor (d : MoneroMethod)
    (hd : d ∈ moneroMethods) :
    lookupMethod d.name = Except.ok d := by
  simp only [moneroMethods, List.mem_cons, List.not_mem_nil, or_false] at hd
  rcases hd with h | h <;> subst h <;> rfl

/-- Witness for C5: looking up `"hello"` returns the `hello` descriptor
registered under that name. -/
theorem lookup_registered_returns_descriptor_witness :
    lookupMethod "hello"
      = Except.ok { name := "hello", argc := 0, method := hello } :=
  lookup_registered_returns_descriptor
    { name := "hello", argc := 0, method := hello }
    (by simp [moneroMethods])

/-- C6: if dispatch matches a descriptor but the caller-supplied argument
count differs from the descriptor's declared argument count, dispatch
fails with `ArityMismatch`. -/
theorem dispatch_arity_mismatch (env : LwsfEnv) (name : String)
    (args : List String) (d : MoneroMethod)
    (hd : lookupMethod name = Except.ok d)
    (hne : (args.length : Int) ≠ d.argc) :
    dispatch env name args = Except.error MoneroError.ArityMismatch := by
  unfold dispatch
  rw [hd]
  simp [Except.bind, hne]

/-- Witness for C6: dispatching `"hello"` with one argument (its declared
argument count being `0`) fails with `ArityMismatch`. -/
theorem dispatch_arity_mismatch_witness :
    dispatch { getWalletManager := none, displayAmount := toString }
        "hello" ["x"]
      = Except.error MoneroError.ArityMismatch :=
  dispatch_arity_mismatch
    { getWalletManager := none, displayAmount := toString } "hello" ["x"]
    { name := "hello", argc := 0, method := hello } rfl (by decide)

/-- C7: the registry satisfies the descriptor invariant: the descriptor
names are pairwise distinct, and every descriptor's declared argument
count is at least `0`.  (Immutability holds by construction: the registry
is a `const` array in the source and a constant definition here.) -/
theorem registry_descriptor_invariant :
    (moneroMethods.map (fun d => d.name)).Nodup ∧
    ∀ d, d ∈ moneroMethods → 0 ≤ d.argc := by
  refine ⟨by decide, ?_⟩
  intro d hd
  simp only [moneroMethods, List.mem_cons, List.not_mem_nil, or_false] at hd
  rcases hd with h | h <;> subst h <;> decide

/-- Witness for C7: the `hello` descriptor is in the registry and its
declared argument count is at least `0`. -/
theorem registry_descriptor_invariant_witness :
    (0 : Int) ≤ (MoneroMethod.mk "hello" 0 hello).argc :=
  registry_descriptor_invariant.2
    (MoneroMethod.mk "hello" 0 hello) (by simp [moneroMethods])

/-- C8: the exported registry lists `"hello"` before `"getHeight"`
(declaration order), and the exported count `moneroMethodCount` equals
the number of descriptors in the registry, namely `2`. -/
theorem registry_export_order_and_count :
    moneroMethods.map (fun d => d.name) = ["hello", "getHeight"] ∧
    moneroMethodCount = moneroMethods.length ∧
    moneroMethodCount = 2 :=
  ⟨rfl, rfl, rfl⟩

/-- C10: both handlers ignore their argument list entirely: under the
same external environment, `hello` and `getHeight` each return the same
result for any two argument lists. -/
theorem handlers_ignore_args (env : LwsfEnv) (args₁ args₂ : List String) :
    hello env args₁ = hello env args₂ ∧
    getHeight env args₁ = getHeight env args₂ :=
  ⟨rfl, rfl⟩

/-- C9: the source's two registry definitions, `lwsfMethods` (modelled
from the spec, being absent from src/) and `moneroMethods`, are equal as
name-to-(arity, handler) mappings: every name is mapped by both to the
same (argc, method) pair, or by neither. -/
theorem duplicate_registries_agree (name : String) :
    registryMap lwsfMethods name = registryMap moneroMethods name :=
  rfl
